import Mathlib

/-!
Verification of the ZoneMinder Home Assistant integration's update-coordinator
logic (`custom_components/zoneminder`): a shallow embedding of
`coordinator.py` (`ZmDataUpdateCoordinator._fetch_all_data`,
`register_event_queries`), the availability / option projections of
`sensor.py` and `select.py`, and the setup logic of `__init__.py`.

Remote calls are modelled as a record of (fallible) responses; raising one of
the caught exception classes (`ZoneminderError`, `RequestException`,
`KeyError`) is modelled as `Except.error`.  Python `dict` assignment is
modelled by `dictSet` on association lists, Python `sorted` by
`List.insertionSort (· ≤ ·)` (extensionally equal on a linear order).
-/

deriving instance DecidableEq for Except

namespace ZM

/-- `zoneminder.monitor.TimePeriod` — the fixed enumeration of event
time windows. -/
inductive TimePeriod where
  | all
  | hour
  | day
  | week
  | month
deriving DecidableEq, Repr

/-- A registered event query: a `(TimePeriod, include_archived)` pair. -/
abbrev EventQuery := TimePeriod × Bool

/-- `zoneminder.monitor.MonitorState` — the classic function-mode enum. -/
inductive MonitorState where
  | NONE
  | MONITOR
  | MODECT
  | RECORD
  | MOCORD
  | NODECT
deriving DecidableEq, Repr

/-- The `.value` string of each `MonitorState` enum member. -/
def MonitorState.value : MonitorState → String
  | .NONE => "None"
  | .MONITOR => "Monitor"
  | .MODECT => "Modect"
  | .RECORD => "Record"
  | .MOCORD => "Mocord"
  | .NODECT => "Nodect"

/-- Iteration order of the `MonitorState` enum members. -/
def MonitorState.members : List MonitorState :=
  [.NONE, .MONITOR, .MODECT, .RECORD, .MOCORD, .NODECT]

/-- The exception classes caught by the integration:
`ZoneminderError` (protocol-level), `RequestException` (transport-level),
`KeyError` (malformed response / missing field). -/
inductive ZmError where
  | zoneminder
  | request
  | key
deriving DecidableEq, Repr

/-- The post-`update_all_monitors` state of one `zoneminder.monitor.Monitor`
object: exactly the attributes `_fetch_all_data` reads off each monitor. -/
structure Monitor where
  id : Nat
  function : Option MonitorState
  is_recording : Bool
  is_available : Bool
  capturing : Option String
  analysing : Option String
  recording : Option String
deriving DecidableEq, Repr

/-- One run state returned by `get_run_states`: a name and an active flag. -/
structure RunState where
  name : String
  active : Bool
deriving DecidableEq, Repr

/-- `ZmMonitorData` (coordinator.py): refreshed data for a single monitor.
`events` maps each registered pair to `some count`, or to `none`
(the absent sentinel) when the pair's fetch returned no data. -/
structure ZmMonitorData where
  function : Option MonitorState
  is_recording : Bool
  is_available : Bool
  capturing : Option String := none
  analysing : Option String := none
  recording : Option String := none
  events : List (EventQuery × Option Int) := []
deriving DecidableEq, Repr

/-- `ZmData` (coordinator.py): one refresh cycle's complete result. -/
structure ZmData where
  monitors : List (Nat × ZmMonitorData) := []
  run_state : Option String := none
  available_run_states : List String := []
  server_available : Bool := false
deriving DecidableEq, Repr

/-- The remote calls `_fetch_all_data` can issue, for counting. -/
inductive RemoteCall where
  | updateAllMonitors
  | getEventCounts (tp : TimePeriod) (includeArchived : Bool)
  | getRunStates
  | isAvailable
deriving DecidableEq, Repr

/-- The `zoneminder.zm.ZoneMinder` client as seen by the coordinator: each
remote call's response for the cycle under consideration.  `Except.error`
models the call raising one of the caught exception classes.
`update_all_monitors` refreshes the monitor objects in place; its `.ok`
payload is the refreshed monitor list the per-monitor loop then reads. -/
structure ZoneMinderClient where
  update_all_monitors : Except ZmError (List Monitor)
  get_event_counts : TimePeriod → Bool → Except ZmError (Option (List (String × Int)))
  get_run_states : Except ZmError (List RunState)
  is_available : Except ZmError Bool

/-- Python `dict` assignment `m[k] = v` on an association list: replace the
binding if the key is present, else append it. -/
def dictSet {α β : Type} [DecidableEq α] (m : List (α × β)) (k : α) (v : β) :
    List (α × β) :=
  if m.any (fun p => p.1 = k) then
    m.map (fun p => if p.1 = k then (k, v) else p)
  else
    m ++ [(k, v)]

/-- The event-count prefetch loop of `_fetch_all_data`
(`for time_period, include_archived in self._event_queries: event_counts[...] =
self.zm_client.get_event_counts(...)`): returns the remote calls issued and
either the assembled `event_counts` association list or the first error
raised. -/
def fetchEventCounts (c : ZoneMinderClient) :
    List EventQuery →
      List RemoteCall × Except ZmError (List (EventQuery × Option (List (String × Int))))
  | [] => ([], .ok [])
  | q :: rest =>
    match c.get_event_counts q.1 q.2 with
    | .error e => ([.getEventCounts q.1 q.2], .error e)
    | .ok r =>
      (.getEventCounts q.1 q.2 :: (fetchEventCounts c rest).1,
        match (fetchEventCounts c rest).2 with
        | .error e => .error e
        | .ok l => .ok ((q, r) :: l))

/-- The per-monitor assembly in `_fetch_all_data`: one `ZmMonitorData` built
from the refreshed monitor object plus, for each registered pair, a lookup
into the prefetched `event_counts` (`counts.get(str(monitor.id), 0)` when the
pair's fetch returned data, the `None` sentinel otherwise). -/
def buildMonitorData (eventCounts : List (EventQuery × Option (List (String × Int))))
    (queries : List EventQuery) (m : Monitor) : ZmMonitorData :=
  { function := m.function
    is_recording := m.is_recording
    is_available := m.is_available
    capturing := m.capturing
    analysing := m.analysing
    recording := m.recording
    events :=
      queries.foldl
        (fun ev q =>
          match (eventCounts.lookup q).getD none with
          | some counts => dictSet ev q (some ((counts.lookup (toString m.id)).getD 0))
          | none => dictSet ev q none)
        [] }

/-- `ZmDataUpdateCoordinator._fetch_all_data` (coordinator.py lines 78-118):
fetch all data for one refresh cycle.  Returns the list of remote calls
issued and either the assembled `ZmData` or the caught error (in the source,
re-raised as `UpdateFailed`).  `queries` is the iteration order of the
coordinator's `_event_queries` set. -/
def fetch_all_data (c : ZoneMinderClient) (queries : List EventQuery) :
    List RemoteCall × Except ZmError ZmData :=
  match c.update_all_monitors with
  | .error e => ([.updateAllMonitors], .error e)
  | .ok monitors =>
    match (fetchEventCounts c queries).2 with
    | .error e => (.updateAllMonitors :: (fetchEventCounts c queries).1, .error e)
    | .ok eventCounts =>
      let monitorsDict :=
        monitors.foldl (fun d m => dictSet d m.id (buildMonitorData eventCounts queries m)) []
      match c.get_run_states with
      | .error e =>
        (.updateAllMonitors :: (fetchEventCounts c queries).1 ++ [.getRunStates], .error e)
      | .ok run_state_objs =>
        match c.is_available with
        | .error e =>
          (.updateAllMonitors :: (fetchEventCounts c queries).1
            ++ [.getRunStates, .isAvailable], .error e)
        | .ok avail =>
          (.updateAllMonitors :: (fetchEventCounts c queries).1
            ++ [.getRunStates, .isAvailable],
            .ok { monitors := monitorsDict
                  run_state := (run_state_objs.find? (fun rs => rs.active)).map
                    (fun rs => rs.name)
                  available_run_states :=
                    List.insertionSort (· ≤ ·) (run_state_objs.map (fun rs => rs.name))
                  server_available := avail })

/-- The coordinator state observable by entities: the published snapshot
(`coordinator.data`, `none` before the first success), the
`last_update_success` flag, and the accumulated `_event_queries` set
(represented as its iteration order, a duplicate-free list). -/
structure CoordinatorState where
  data : Option ZmData := none
  last_update_success : Bool := true
  event_queries : List EventQuery := []

/-- `ZmDataUpdateCoordinator.register_event_queries`:
`self._event_queries |= queries` — set union, modelled on the iteration-order
list as appending the genuinely new elements. -/
def register_event_queries (st : CoordinatorState) (queries : List EventQuery) :
    CoordinatorState :=
  { st with
    event_queries :=
      st.event_queries ++ queries.filter (fun q => decide (q ∉ st.event_queries)) }

/-- Modelled from the spec: one refresh cycle as driven by the host
framework's `DataUpdateCoordinator.async_refresh` (the framework code is not
part of this repository).  The cycle runs `_fetch_all_data`; on success the
new snapshot is published whole and the last-refresh-success flag is set, on
`UpdateFailed` the previously published snapshot is left untouched and the
flag is cleared. -/
def refreshCycle (st : CoordinatorState) (c : ZoneMinderClient) : CoordinatorState :=
  match (fetch_all_data c st.event_queries).2 with
  | .ok d => { st with data := some d, last_update_success := true }
  | .error _ => { st with last_update_success := false }

/-- The remote calls issued by one refresh cycle of a coordinator. -/
def cycleTrace (st : CoordinatorState) (c : ZoneMinderClient) : List RemoteCall :=
  (fetch_all_data c st.event_queries).1

/-- Whether a remote call is the bulk `update_all_monitors` status call. -/
def isBulkStatusCall : RemoteCall → Bool
  | .updateAllMonitors => true
  | _ => false

/-- Whether a remote call is a `get_event_counts` call. -/
def isEventCountsCall : RemoteCall → Bool
  | .getEventCounts _ _ => true
  | _ => false

/-- Whether a fallible remote response is an error (the call raising one of
the caught exception classes). -/
def errored {α : Type} : Except ZmError α → Prop
  | .error _ => True
  | .ok _ => False

instance {α : Type} (x : Except ZmError α) : Decidable (errored x) := by
  cases x <;> simp [errored] <;> infer_instance

/-- `ZMSensorRunState.available` (sensor.py lines 197-204): unavailable when
the last update failed, otherwise the snapshot's `server_available` flag
(unavailable when no snapshot exists yet). -/
def ZMSensorRunState_available (last_update_success : Bool) (data : Option ZmData) :
    Bool :=
  if !last_update_success then false
  else
    match data with
    | some d => d.server_available
    | none => false

/-- `ZMSelectRunState.available` (select.py lines 70-77): same logic as
`ZMSensorRunState.available`. -/
def ZMSelectRunState_available (last_update_success : Bool) (data : Option ZmData) :
    Bool :=
  if !last_update_success then false
  else
    match data with
    | some d => d.server_available
    | none => false

/-- `ZMSensorMonitors.available` (sensor.py lines 126-133): unavailable when
the last update failed, otherwise the monitor's `is_available` flag from the
snapshot (unavailable when the snapshot or the monitor entry is missing). -/
def ZMSensorMonitors_available (last_update_success : Bool) (data : Option ZmData)
    (monitorId : Nat) : Bool :=
  if !last_update_success then false
  else
    match data with
    | some d =>
      match d.monitors.lookup monitorId with
      | some md => md.is_available
      | none => false
    | none => false

/-- `FUNCTION_OPTIONS` (select.py line 24): `[s.value for s in MonitorState]`. -/
def FUNCTION_OPTIONS : List String := MonitorState.members.map MonitorState.value

/-- Modelled from the spec: the pure classic-function derivation table of
§4.2.  The implementation is `zoneminder.monitor._derive_function` in the
external zm-py library, not part of this repository; the spec's fixed table
is NONE→(None,None,None), MONITOR→(Always,None,None),
MODECT→(Always,Always,OnMotion), RECORD→(Always,None,Always),
MOCORD→(Always,Always,Always), NODECT→(Always,None,OnMotion), and a triple
matching no row has no classic equivalent. -/
def derive_function (capturing analysing recording : String) : Option MonitorState :=
  if capturing = "None" ∧ analysing = "None" ∧ recording = "None" then
    some .NONE
  else if capturing = "Always" ∧ analysing = "None" ∧ recording = "None" then
    some .MONITOR
  else if capturing = "Always" ∧ analysing = "Always" ∧ recording = "OnMotion" then
    some .MODECT
  else if capturing = "Always" ∧ analysing = "None" ∧ recording = "Always" then
    some .RECORD
  else if capturing = "Always" ∧ analysing = "Always" ∧ recording = "Always" then
    some .MOCORD
  else if capturing = "Always" ∧ analysing = "None" ∧ recording = "OnMotion" then
    some .NODECT
  else
    none

/-- The body of `ZMSelectFunction.current_option` after the snapshot and
monitor-entry lookups (select.py lines 142-148): derive the classic function
from the sub-mode triple when all three are present (falling back to
`"Custom"` when no classic mode matches), else use the classic `function`
field verbatim. -/
def currentOptionOfMonitorData (md : ZmMonitorData) : Option String :=
  match md.capturing, md.analysing, md.recording with
  | some cap, some ana, some rcd =>
    match derive_function cap ana rcd with
    | some derived => some derived.value
    | none => some "Custom"
  | _, _, _ =>
    match md.function with
    | some f => some f.value
    | none => none

/-- `ZMSelectFunction.current_option` (select.py lines 126-149). -/
def ZMSelectFunction_current_option (data : Option ZmData) (monitorId : Nat) :
    Option String :=
  match data with
  | some d =>
    match d.monitors.lookup monitorId with
    | some md => currentOptionOfMonitorData md
    | none => none
  | none => none

/-- `ZMSelectFunction.options` (select.py lines 126-131): the classic
function options, plus `"Custom"` while the current option is `"Custom"`. -/
def ZMSelectFunction_options (data : Option ZmData) (monitorId : Nat) : List String :=
  if ZMSelectFunction_current_option data monitorId = some "Custom" then
    FUNCTION_OPTIONS ++ ["Custom"]
  else
    FUNCTION_OPTIONS

/-- The exception classes a `login` call can raise that the setup code
distinguishes: `RequestException`, `LoginError` and `ZoneminderError` appear
in the login `except` clause; `KeyError` does not, so it is never caught
there. -/
inductive LoginRaise where
  | request
  | login
  | zoneminder
  | key
deriving DecidableEq, Repr

/-- Outcome of `async_setup_entry` up to coordinator creation:
`notReady` models raising `ConfigEntryNotReady`, `uncaughtError` models an
exception propagating out of setup uncaught, `ready ms` models proceeding to
create and start the coordinator over monitor list `ms`. -/
inductive SetupOutcome where
  | notReady
  | uncaughtError
  | ready (monitors : List Monitor)
deriving DecidableEq, Repr

/-- The login and monitor-list phases of `async_setup_entry`
(`__init__.py` lines 90-105).  The login call is wrapped in
`except (RequestException, LoginError, ZoneminderError)`, which re-raises as
`ConfigEntryNotReady`; a `KeyError` from login is not in that tuple and
propagates uncaught.  A `False` login return also raises
`ConfigEntryNotReady`.  The monitor fetch is wrapped in
`except (ZoneminderError, RequestException, KeyError)`: any such error is
logged and the monitor list set to `[]`, and setup proceeds to create the
coordinator either way. -/
def setup_entry_outcome (login : Except LoginRaise Bool)
    (monitors_result : Except ZmError (List Monitor)) : SetupOutcome :=
  match login with
  | .error .request => .notReady
  | .error .login => .notReady
  | .error .zoneminder => .notReady
  | .error .key => .uncaughtError
  | .ok false => .notReady
  | .ok true =>
    match monitors_result with
    | .error _ => .ready []
    | .ok monitors => .ready monitors

/-- Modelled from the spec: the request-coalescing state of the host
framework's `DataUpdateCoordinator.async_request_refresh` (the framework
code is not part of this repository).  `in_flight` says a refresh cycle is
currently running; `scheduled` counts additional cycles scheduled beyond the
in-flight one. -/
structure RefreshScheduler where
  in_flight : Bool := false
  scheduled : Nat := 0
deriving DecidableEq, Repr

/-- Modelled from the spec: `RequestRefresh()` — triggers one refresh cycle
if none is in flight; while one is in flight, a caller is satisfied by the
in-flight cycle's result and at most one additional cycle is scheduled (no
duplicate concurrent fetch is started). -/
def request_refresh (s : RefreshScheduler) : RefreshScheduler :=
  if s.in_flight then
    if s.scheduled = 0 then { s with scheduled := 1 } else s
  else
    { s with in_flight := true }

/-! ### Association-list (Python `dict`) lemmas -/

theorem lookup_append {α β : Type} [BEq α] (m₁ m₂ : List (α × β)) (k : α) :
    (m₁ ++ m₂).lookup k =
      match m₁.lookup k with
      | some v => some v
      | none => m₂.lookup k := by
  induction m₁ with
  | nil => simp [List.lookup]
  | cons p rest ih =>
    rcases p with ⟨k', v'⟩
    by_cases h : (k == k') = true
    · simp [List.lookup, h]
    · simp only [Bool.not_eq_true] at h
      simp [List.lookup, h, ih]

theorem lookup_eq_none_of_not_any {α β : Type} [DecidableEq α] [BEq α] [LawfulBEq α] (m : List (α × β)) (k : α)
    (h : m.any (fun p => p.1 = k) = false) : m.lookup k = none := by
  induction m with
  | nil => simp [List.lookup]
  | cons p rest ih =>
    simp only [List.any_cons, Bool.or_eq_false_iff] at h
    have hk : (k == p.1) = false := by
      rcases h with ⟨h1, _⟩
      simp only [decide_eq_false_iff_not] at h1
      exact beq_eq_false_iff_ne.mpr (fun hk => h1 hk.symm)
    rcases p with ⟨k', v'⟩
    simp only at hk
    simp [List.lookup, hk, ih h.2]

theorem lookup_map_set {α β : Type} [DecidableEq α] [BEq α] [LawfulBEq α] (m : List (α × β)) (k : α) (v : β) :
    (m.map (fun p => if p.1 = k then (k, v) else p)).lookup k =
      if m.any (fun p => p.1 = k) then some v else none := by
  induction m with
  | nil => simp [List.lookup]
  | cons p rest ih =>
    rcases p with ⟨k', v'⟩
    simp only [List.map_cons]
    by_cases h : k' = k
    · subst h
      have hhead : (if ((k', v') : α × β).1 = k' then (k', v) else (k', v')) = (k', v) :=
        if_pos rfl
      rw [hhead]
      simp [List.lookup, List.any_cons]
    · have hhead : (if ((k', v') : α × β).1 = k then (k, v) else (k', v')) = (k', v') :=
        if_neg h
      rw [hhead]
      have hk : (k == k') = false := beq_eq_false_iff_ne.mpr (fun hk => h hk.symm)
      have hd : decide (k' = k) = false := decide_eq_false h
      simp only [List.lookup, hk, List.any_cons, hd, Bool.false_or]
      exact ih

theorem lookup_dictSet_self {α β : Type} [DecidableEq α] [BEq α] [LawfulBEq α] (m : List (α × β)) (k : α) (v : β) :
    (dictSet m k v).lookup k = some v := by
  unfold dictSet
  by_cases h : m.any (fun p => p.1 = k) = true
  · simp [h, lookup_map_set]
  · simp only [Bool.not_eq_true] at h
    simp [h, lookup_append, lookup_eq_none_of_not_any m k h, List.lookup]

theorem lookup_map_set_ne {α β : Type} [DecidableEq α] [BEq α] [LawfulBEq α] (m : List (α × β)) (k k' : α) (v : β)
    (h : k' ≠ k) :
    (m.map (fun p => if p.1 = k then (k, v) else p)).lookup k' = m.lookup k' := by
  have hne : (k' == k) = false := beq_eq_false_iff_ne.mpr h
  induction m with
  | nil => simp
  | cons p rest ih =>
    rcases p with ⟨k₀, v₀⟩
    simp only [List.map_cons]
    by_cases h0 : k₀ = k
    · subst h0
      have hhead : (if ((k₀, v₀) : α × β).1 = k₀ then (k₀, v) else (k₀, v₀)) = (k₀, v) :=
        if_pos rfl
      rw [hhead]
      simp only [List.lookup, hne]
      exact ih
    · have hhead : (if ((k₀, v₀) : α × β).1 = k then (k, v) else (k₀, v₀)) = (k₀, v₀) :=
        if_neg h0
      rw [hhead]
      by_cases hk : (k' == k₀) = true
      · simp [List.lookup, hk]
      · simp only [Bool.not_eq_true] at hk
        simp only [List.lookup, hk]
        exact ih

theorem lookup_dictSet_ne {α β : Type} [DecidableEq α] [BEq α] [LawfulBEq α] (m : List (α × β)) (k k' : α) (v : β)
    (h : k' ≠ k) : (dictSet m k v).lookup k' = m.lookup k' := by
  unfold dictSet
  have hne : (k' == k) = false := beq_eq_false_iff_ne.mpr h
  by_cases ha : m.any (fun p => p.1 = k) = true
  · simp [ha, lookup_map_set_ne m k k' v h]
  · simp only [Bool.not_eq_true] at ha
    simp only [ha, Bool.false_eq_true, if_false, lookup_append]
    cases hm : m.lookup k' with
    | some v' => simp
    | none => simp [List.lookup, hne]

theorem mem_dictSet {α β : Type} [DecidableEq α] (m : List (α × β)) (k : α) (v : β)
    (p : α × β) (hp : p ∈ dictSet m k v) : p ∈ m ∨ p = (k, v) := by
  unfold dictSet at hp
  by_cases ha : m.any (fun p => p.1 = k) = true
  · simp only [ha, if_pos] at hp
    rcases List.mem_map.mp hp with ⟨q, hq, hfq⟩
    by_cases hqk : q.1 = k
    · right
      simp [hqk] at hfq
      exact hfq.symm
    · left
      simp [hqk] at hfq
      exact hfq ▸ hq
  · simp only [Bool.not_eq_true] at ha
    simp only [ha, Bool.false_eq_true, if_false, List.mem_append, List.mem_singleton] at hp
    exact hp

theorem lookup_foldl_dictSet_not_mem {α β : Type} [DecidableEq α] [BEq α] [LawfulBEq α]
    (val : α → β) (keys : List α) (init : List (α × β)) (k : α) (h : k ∉ keys) :
    (keys.foldl (fun m k' => dictSet m k' (val k')) init).lookup k = init.lookup k := by
  induction keys generalizing init with
  | nil => rfl
  | cons k' rest ih =>
    simp only [List.foldl_cons]
    have hk : k ≠ k' := fun e => h (e ▸ List.mem_cons_self k' rest)
    rw [ih _ (fun hm => h (List.mem_cons_of_mem _ hm)), lookup_dictSet_ne _ _ _ _ hk]

theorem lookup_foldl_dictSet_mem {α β : Type} [DecidableEq α] [BEq α] [LawfulBEq α]
    (val : α → β) (keys : List α) (init : List (α × β)) (k : α) (h : k ∈ keys) :
    (keys.foldl (fun m k' => dictSet m k' (val k')) init).lookup k = some (val k) := by
  induction keys generalizing init with
  | nil => cases h
  | cons k' rest ih =>
    simp only [List.foldl_cons]
    by_cases hr : k ∈ rest
    · exact ih _ hr
    · have hk : k = k' := by
        rcases List.mem_cons.mp h with h1 | h2
        · exact h1
        · exact absurd h2 hr
      subst hk
      rw [lookup_foldl_dictSet_not_mem _ _ _ _ hr, lookup_dictSet_self]

theorem mem_foldl_dictSet {α β γ : Type} [DecidableEq α]
    (key : γ → α) (val : γ → β) (items : List γ) (init : List (α × β)) (p : α × β)
    (hp : p ∈ items.foldl (fun d x => dictSet d (key x) (val x)) init) :
    p ∈ init ∨ ∃ x ∈ items, p = (key x, val x) := by
  induction items generalizing init with
  | nil => exact Or.inl hp
  | cons x rest ih =>
    simp only [List.foldl_cons] at hp
    rcases ih _ hp with hinit | ⟨y, hy, hpy⟩
    · rcases mem_dictSet _ _ _ _ hinit with h1 | h2
      · exact Or.inl h1
      · exact Or.inr ⟨x, List.mem_cons_self x rest, h2⟩
    · exact Or.inr ⟨y, List.mem_cons_of_mem _ hy, hpy⟩

/-! ### Event-count assembly lemmas -/

/-- The value `_fetch_all_data` records for one monitor and one registered
pair: the count looked up by the monitor's identifier string (default `0`)
when the pair's prefetch returned data, the absent sentinel otherwise. -/
def eventValue (eventCounts : List (EventQuery × Option (List (String × Int))))
    (m : Monitor) (q : EventQuery) : Option Int :=
  match (eventCounts.lookup q).getD none with
  | some counts => some ((counts.lookup (toString m.id)).getD 0)
  | none => none

theorem buildMonitorData_events (ec : List (EventQuery × Option (List (String × Int))))
    (qs : List EventQuery) (m : Monitor) :
    (buildMonitorData ec qs m).events
      = qs.foldl (fun ev q => dictSet ev q (eventValue ec m q)) [] := by
  have hfun : (fun (ev : List (EventQuery × Option Int)) (q : EventQuery) =>
        match (ec.lookup q).getD none with
        | some counts => dictSet ev q (some ((counts.lookup (toString m.id)).getD 0))
        | none => dictSet ev q none)
      = fun ev q => dictSet ev q (eventValue ec m q) := by
    funext ev q
    unfold eventValue
    cases (ec.lookup q).getD none <;> rfl
  show List.foldl _ [] qs = _
  rw [hfun]

theorem buildMonitorData_events_lookup (ec : List (EventQuery × Option (List (String × Int))))
    (qs : List EventQuery) (m : Monitor) (q : EventQuery) (hq : q ∈ qs) :
    (buildMonitorData ec qs m).events.lookup q = some (eventValue ec m q) := by
  rw [buildMonitorData_events]
  exact lookup_foldl_dictSet_mem _ _ _ _ hq

theorem fetchEventCounts_ok (c : ZoneMinderClient) (qs : List EventQuery)
    (l : List (EventQuery × Option (List (String × Int))))
    (h : (fetchEventCounts c qs).2 = .ok l) :
    (fetchEventCounts c qs).1 = qs.map (fun q => RemoteCall.getEventCounts q.1 q.2)
      ∧ ∀ q ∈ qs, ∃ r, c.get_event_counts q.1 q.2 = .ok r ∧ l.lookup q = some r := by
  induction qs generalizing l with
  | nil =>
    refine ⟨rfl, ?_⟩
    intro q hq
    cases hq
  | cons q rest ih =>
    rcases hc : c.get_event_counts q.1 q.2 with e | r
    · rw [show fetchEventCounts c (q :: rest)
          = ([.getEventCounts q.1 q.2], .error e) by simp [fetchEventCounts, hc]] at h
      cases h
    · rcases hrec : fetchEventCounts c rest with ⟨tr, res⟩
      cases res with
      | error e =>
        have hbad : (fetchEventCounts c (q :: rest)).2 = .error e := by
          simp [fetchEventCounts, hc, hrec]
        rw [hbad] at h
        cases h
      | ok l' =>
        have hexp1 : (fetchEventCounts c (q :: rest)).1
            = .getEventCounts q.1 q.2 :: tr := by
          simp [fetchEventCounts, hc, hrec]
        have hexp2 : (fetchEventCounts c (q :: rest)).2 = .ok ((q, r) :: l') := by
          simp [fetchEventCounts, hc, hrec]
        rw [hexp2] at h
        rcases ih l' (by rw [hrec]) with ⟨ihtr, ihlk⟩
        rw [hrec] at ihtr
        simp only at ihtr
        constructor
        · rw [hexp1, ihtr]
          simp
        · intro q' hq'
          rcases List.mem_cons.mp hq' with rfl | hmem
          · refine ⟨r, hc, ?_⟩
            cases h
            simp [List.lookup]
          · rcases ihlk q' hmem with ⟨r', hr', hlk⟩
            refine ⟨r', hr', ?_⟩
            cases h
            by_cases hqq : (q' == q) = true
            · have hq'q : q' = q := eq_of_beq hqq
              subst hq'q
              have hrr : c.get_event_counts q'.1 q'.2 = .ok r := hc
              rw [hr'] at hrr
              cases hrr
              simp [List.lookup]
            · simp only [Bool.not_eq_true] at hqq
              simp [List.lookup, hqq, hlk]

theorem fetchEventCounts_error (c : ZoneMinderClient) (qs : List EventQuery)
    (h : ∃ q ∈ qs, errored (c.get_event_counts q.1 q.2)) :
    errored (fetchEventCounts c qs).2 := by
  induction qs with
  | nil =>
    rcases h with ⟨q, hq, _⟩
    cases hq
  | cons q rest ih =>
    rcases hc : c.get_event_counts q.1 q.2 with e | r
    · simp [fetchEventCounts, hc, errored]
    · rcases hrec : fetchEventCounts c rest with ⟨tr, res⟩
      rcases h with ⟨q', hq', herr⟩
      rcases List.mem_cons.mp hq' with rfl | hmem
      · rw [hc] at herr
        cases herr
      · have hrest := ih ⟨q', hmem, herr⟩
        rw [hrec] at hrest
        cases res with
        | error e => simp [fetchEventCounts, hc, hrec, errored]
        | ok l => cases hrest

/-! ### `_fetch_all_data` lemmas -/

theorem fetchEventCounts_congr (c₁ c₂ : ZoneMinderClient)
    (h : c₁.get_event_counts = c₂.get_event_counts) (qs : List EventQuery) :
    fetchEventCounts c₁ qs = fetchEventCounts c₂ qs := by
  induction qs with
  | nil => rfl
  | cons q rest ih => simp [fetchEventCounts, h, ih]

theorem fetch_all_data_ok (c : ZoneMinderClient) (qs : List EventQuery) (d : ZmData)
    (h : (fetch_all_data c qs).2 = .ok d) :
    ∃ ms l rss avail,
      c.update_all_monitors = .ok ms
      ∧ (fetchEventCounts c qs).2 = .ok l
      ∧ c.get_run_states = .ok rss
      ∧ c.is_available = .ok avail
      ∧ d.monitors = ms.foldl (fun dd m => dictSet dd m.id (buildMonitorData l qs m)) []
      ∧ d.run_state = (rss.find? (fun rs => rs.active)).map (fun rs => rs.name)
      ∧ d.available_run_states = List.insertionSort (· ≤ ·) (rss.map (fun rs => rs.name))
      ∧ d.server_available = avail
      ∧ (fetch_all_data c qs).1
        = .updateAllMonitors :: (fetchEventCounts c qs).1
          ++ [.getRunStates, .isAvailable] := by
  rcases hu : c.update_all_monitors with e | ms
  · have hbad : (fetch_all_data c qs).2 = .error e := by simp [fetch_all_data, hu]
    rw [hbad] at h
    cases h
  · rcases hec : (fetchEventCounts c qs).2 with e | l
    · have hbad : (fetch_all_data c qs).2 = .error e := by simp [fetch_all_data, hu, hec]
      rw [hbad] at h
      cases h
    · rcases hrs : c.get_run_states with e | rss
      · have hbad : (fetch_all_data c qs).2 = .error e := by
          simp [fetch_all_data, hu, hec, hrs]
        rw [hbad] at h
        cases h
      · rcases hav : c.is_available with e | avail
        · have hbad : (fetch_all_data c qs).2 = .error e := by
            simp [fetch_all_data, hu, hec, hrs, hav]
          rw [hbad] at h
          cases h
        · have hok : (fetch_all_data c qs).2
              = .ok { monitors :=
                        ms.foldl (fun dd m => dictSet dd m.id (buildMonitorData l qs m)) []
                      run_state := (rss.find? (fun rs => rs.active)).map (fun rs => rs.name)
                      available_run_states :=
                        List.insertionSort (· ≤ ·) (rss.map (fun rs => rs.name))
                      server_available := avail } := by
            simp [fetch_all_data, hu, hec, hrs, hav]
          rw [hok] at h
          cases h
          refine ⟨ms, l, rss, avail, rfl, rfl, rfl, rfl, rfl, rfl, rfl, rfl, ?_⟩
          simp [fetch_all_data, hu, hec, hrs, hav]

theorem fetch_all_data_error (c : ZoneMinderClient) (qs : List EventQuery)
    (h : errored c.update_all_monitors
      ∨ (∃ q ∈ qs, errored (c.get_event_counts q.1 q.2))
      ∨ errored c.get_run_states
      ∨ errored c.is_available) :
    errored (fetch_all_data c qs).2 := by
  rcases hf : (fetch_all_data c qs).2 with e | d
  · simp [errored]
  · exfalso
    rcases fetch_all_data_ok c qs d hf with ⟨ms, l, rss, avail, hu, hec, hrs, hav, -⟩
    rcases h with h | h | h | h
    · rw [hu] at h
      exact h
    · have herr := fetchEventCounts_error c qs h
      rw [hec] at herr
      exact herr
    · rw [hrs] at h
      exact h
    · rw [hav] at h
      exact h

theorem refreshCycle_of_error (st : CoordinatorState) (c : ZoneMinderClient)
    (h : errored (fetch_all_data c st.event_queries).2) :
    (refreshCycle st c).data = st.data
      ∧ (refreshCycle st c).last_update_success = false := by
  rcases hf : (fetch_all_data c st.event_queries).2 with e | d
  · simp [refreshCycle, hf]
  · rw [hf] at h
    cases h

theorem refreshCycle_of_ok (st : CoordinatorState) (c : ZoneMinderClient) (d : ZmData)
    (h : (fetch_all_data c st.event_queries).2 = .ok d) :
    (refreshCycle st c).data = some d
      ∧ (refreshCycle st c).last_update_success = true := by
  simp [refreshCycle, h]

theorem fetch_trace_congr (c₁ c₂ : ZoneMinderClient)
    (hec : c₁.get_event_counts = c₂.get_event_counts)
    (hrs : c₁.get_run_states = c₂.get_run_states)
    (hav : c₁.is_available = c₂.is_available)
    (hok₁ : ∃ ms, c₁.update_all_monitors = .ok ms)
    (hok₂ : ∃ ms, c₂.update_all_monitors = .ok ms) (qs : List EventQuery) :
    (fetch_all_data c₁ qs).1 = (fetch_all_data c₂ qs).1 := by
  rcases hok₁ with ⟨ms₁, hu₁⟩
  rcases hok₂ with ⟨ms₂, hu₂⟩
  have hfec := fetchEventCounts_congr c₁ c₂ hec qs
  rcases hec2 : (fetchEventCounts c₂ qs).2 with e | l
  · simp [fetch_all_data, hu₁, hu₂, hfec, hrs, hav, hec2]
  · rcases hrs2 : c₂.get_run_states with e | rss
    · simp [fetch_all_data, hu₁, hu₂, hfec, hrs, hav, hec2, hrs2]
    · rcases hav2 : c₂.is_available with e | b
      · simp [fetch_all_data, hu₁, hu₂, hfec, hrs, hav, hec2, hrs2, hav2]
      · simp [fetch_all_data, hu₁, hu₂, hfec, hrs, hav, hec2, hrs2, hav2]

/-! ### Concrete fixtures for witnesses -/

/-- A monitor whose sub-mode triple matches the classic MODECT mode. -/
def exMonitor1 : Monitor :=
  { id := 1, function := some .MODECT, is_recording := false, is_available := true,
    capturing := some "Always", analysing := some "Always", recording := some "OnMotion" }

/-- A monitor from an older server: no sub-mode fields. -/
def exMonitor2 : Monitor :=
  { id := 2, function := some .MONITOR, is_recording := false, is_available := true,
    capturing := none, analysing := none, recording := none }

/-- A fully healthy client: two monitors, counts for both, two run states. -/
def exClient : ZoneMinderClient :=
  { update_all_monitors := .ok [exMonitor1, exMonitor2]
    get_event_counts := fun _ _ => .ok (some [("1", 100), ("2", 50)])
    get_run_states := .ok [⟨"Running", true⟩, ⟨"Home", false⟩]
    is_available := .ok true }

/-- A previously published snapshot. -/
def exSnapshot : ZmData :=
  { monitors := [(1, { function := some .MODECT, is_recording := false, is_available := true })]
    run_state := some "Running"
    available_run_states := ["Running"]
    server_available := true }

/-- A coordinator state holding `exSnapshot` with one registered pair. -/
def exState : CoordinatorState :=
  { data := some exSnapshot, last_update_success := true,
    event_queries := [(TimePeriod.all, false)] }

/-- A client whose run-state fetch raises a transport error. -/
def exFailClient : ZoneMinderClient :=
  { update_all_monitors := .ok [exMonitor1]
    get_event_counts := fun _ _ => .ok (some [("1", 100)])
    get_run_states := .error .request
    is_available := .ok true }

/-- The snapshot `exClient` produces for `exState`'s registered pair. -/
def exData : ZmData :=
  { monitors :=
      [(1, { function := some .MODECT, is_recording := false, is_available := true,
             capturing := some "Always", analysing := some "Always",
             recording := some "OnMotion",
             events := [((TimePeriod.all, false), some 100)] }),
       (2, { function := some .MONITOR, is_recording := false, is_available := true,
             capturing := none, analysing := none, recording := none,
             events := [((TimePeriod.all, false), some 50)] })]
    run_state := some "Running"
    available_run_states := ["Home", "Running"]
    server_available := true }

theorem exClient_fetch :
    (fetch_all_data exClient exState.event_queries).2 = .ok exData := by
  simp [fetch_all_data, fetchEventCounts, buildMonitorData, dictSet, exClient, exMonitor1,
    exMonitor2, exState, exData, List.insertionSort, List.orderedInsert, List.lookup]
  decide

/-! ### The claims -/

/-- C1: For every refresh cycle, if any remote call in the cycle raises an
error (protocol-level, transport-level, or malformed-response), the whole
cycle fails atomically: the previously published snapshot is left unchanged,
the last-refresh-success flag becomes false, and a later successful cycle
simply overwrites it. -/
theorem claim_refresh_failure_atomic (st : CoordinatorState) (c : ZoneMinderClient) :
    ((errored c.update_all_monitors
        ∨ (∃ q ∈ st.event_queries, errored (c.get_event_counts q.1 q.2))
        ∨ errored c.get_run_states
        ∨ errored c.is_available)
      → errored (fetch_all_data c st.event_queries).2)
    ∧ (errored (fetch_all_data c st.event_queries).2
      → (refreshCycle st c).data = st.data
        ∧ (refreshCycle st c).last_update_success = false)
    ∧ ∀ d : ZmData, (fetch_all_data c st.event_queries).2 = .ok d
      → (refreshCycle st c).data = some d
        ∧ (refreshCycle st c).last_update_success = true := by
  refine ⟨fun h => fetch_all_data_error c st.event_queries h,
    fun h => refreshCycle_of_error st c h,
    fun d h => refreshCycle_of_ok st c d h⟩

theorem claim_refresh_failure_atomic_witness :
    ((refreshCycle exState exFailClient).data = exState.data
      ∧ (refreshCycle exState exFailClient).last_update_success = false)
    ∧ ((refreshCycle exState exClient).data = some exData
      ∧ (refreshCycle exState exClient).last_update_success = true) :=
  ⟨(claim_refresh_failure_atomic exState exFailClient).2.1
      ((claim_refresh_failure_atomic exState exFailClient).1
        (Or.inr (Or.inr (Or.inl (by simp [exFailClient, errored]))))),
    (claim_refresh_failure_atomic exState exClient).2.2 exData exClient_fetch⟩

/-- C2: For every successful refresh cycle with a registered list of K
distinct pairs, the cycle issues exactly one bulk monitor-status call and
exactly K event-count calls, and the sequence of remote calls is independent
of the monitor list the bulk call returns. -/
theorem claim_call_efficiency (st : CoordinatorState) (c : ZoneMinderClient) (d : ZmData)
    (h : (fetch_all_data c st.event_queries).2 = .ok d) :
    ((cycleTrace st c).countP isEventCountsCall = st.event_queries.length
      ∧ (cycleTrace st c).countP isBulkStatusCall = 1)
    ∧ ∀ ms₁ ms₂ : List Monitor,
        (fetch_all_data { c with update_all_monitors := .ok ms₁ } st.event_queries).1
          = (fetch_all_data { c with update_all_monitors := .ok ms₂ } st.event_queries).1 := by
  rcases fetch_all_data_ok c st.event_queries d h with
    ⟨ms, l, rss, avail, hu, hec, hrs, hav, -, -, -, -, htr⟩
  constructor
  · rcases fetchEventCounts_ok c st.event_queries l hec with ⟨hmap, -⟩
    unfold cycleTrace
    rw [htr, hmap]
    constructor
    · simp [List.countP_cons, List.countP_append, List.countP_map, isEventCountsCall,
        List.countP_eq_length]
    · simp [List.countP_cons, List.countP_append, List.countP_map, isBulkStatusCall]
  · intro ms₁ ms₂
    exact fetch_trace_congr { c with update_all_monitors := .ok ms₁ }
      { c with update_all_monitors := .ok ms₂ } rfl rfl rfl ⟨ms₁, rfl⟩ ⟨ms₂, rfl⟩
      st.event_queries

theorem claim_call_efficiency_witness :
    (cycleTrace exState exClient).countP isEventCountsCall = exState.event_queries.length
      ∧ (cycleTrace exState exClient).countP isBulkStatusCall = 1 :=
  (claim_call_efficiency exState exClient exData exClient_fetch).1

/-- A client whose event-count fetch returns no data (`None`) for every
pair. -/
def exNoCountsClient : ZoneMinderClient :=
  { update_all_monitors := .ok [exMonitor1, exMonitor2]
    get_event_counts := fun _ _ => .ok none
    get_run_states := .ok [⟨"Running", true⟩]
    is_available := .ok true }

/-- The monitor data `exNoCountsClient` yields for `exMonitor1`. -/
def exMdNoCounts1 : ZmMonitorData :=
  { function := some .MODECT, is_recording := false, is_available := true,
    capturing := some "Always", analysing := some "Always", recording := some "OnMotion",
    events := [((TimePeriod.all, false), none)] }

/-- The snapshot `exNoCountsClient` produces for `exState`. -/
def exDataNoCounts : ZmData :=
  { monitors :=
      [(1, exMdNoCounts1),
       (2, { function := some .MONITOR, is_recording := false, is_available := true,
             capturing := none, analysing := none, recording := none,
             events := [((TimePeriod.all, false), none)] })]
    run_state := some "Running"
    available_run_states := ["Running"]
    server_available := true }

theorem exNoCountsClient_fetch :
    (fetch_all_data exNoCountsClient exState.event_queries).2 = .ok exDataNoCounts := by
  simp [fetch_all_data, fetchEventCounts, buildMonitorData, dictSet, exNoCountsClient,
    exMonitor1, exMonitor2, exState, exDataNoCounts, exMdNoCounts1, List.insertionSort,
    List.orderedInsert, List.lookup]

/-- C5: For every registered pair whose event-count call returns no data in a
cycle, every monitor's count for that pair in the resulting snapshot is the
absent sentinel (`none`), never zero. -/
theorem claim_absent_sentinel (st : CoordinatorState) (c : ZoneMinderClient)
    (q : EventQuery) (d : ZmData)
    (hq : q ∈ st.event_queries)
    (hc : c.get_event_counts q.1 q.2 = .ok none)
    (h : (fetch_all_data c st.event_queries).2 = .ok d) :
    ∀ p ∈ d.monitors, p.2.events.lookup q = some none := by
  rcases fetch_all_data_ok c st.event_queries d h with
    ⟨ms, l, rss, avail, hu, hec, hrs, hav, hmon, -, -, -, -⟩
  intro p hp
  rw [hmon] at hp
  rcases mem_foldl_dictSet _ _ _ _ _ hp with hnil | ⟨m, hm, rfl⟩
  · cases hnil
  · show (buildMonitorData l st.event_queries m).events.lookup q = some none
    rw [buildMonitorData_events_lookup l st.event_queries m q hq]
    rcases (fetchEventCounts_ok c st.event_queries l hec).2 q hq with ⟨r, hr, hlk⟩
    rw [hc] at hr
    cases hr
    simp [eventValue, hlk]

theorem claim_absent_sentinel_witness :
    exMdNoCounts1.events.lookup (TimePeriod.all, false) = some none :=
  claim_absent_sentinel exState exNoCountsClient (TimePeriod.all, false) exDataNoCounts
    (by decide) rfl exNoCountsClient_fetch (1, exMdNoCounts1) (by decide)

/-- A client whose event-count map only mentions monitor 1, so monitor 2's
identifier is missing from it. -/
def exPartialCountsClient : ZoneMinderClient :=
  { update_all_monitors := .ok [exMonitor1, exMonitor2]
    get_event_counts := fun _ _ => .ok (some [("1", 100)])
    get_run_states := .ok [⟨"Running", true⟩]
    is_available := .ok true }

/-- The monitor data `exPartialCountsClient` yields for `exMonitor2`, whose
identifier is absent from the returned count map. -/
def exMdMissing2 : ZmMonitorData :=
  { function := some .MONITOR, is_recording := false, is_available := true,
    capturing := none, analysing := none, recording := none,
    events := [((TimePeriod.all, false), some 0)] }

/-- The snapshot `exPartialCountsClient` produces for `exState`. -/
def exDataPartial : ZmData :=
  { monitors :=
      [(1, { function := some .MODECT, is_recording := false, is_available := true,
             capturing := some "Always", analysing := some "Always",
             recording := some "OnMotion",
             events := [((TimePeriod.all, false), some 100)] }),
       (2, exMdMissing2)]
    run_state := some "Running"
    available_run_states := ["Running"]
    server_available := true }

theorem exPartialCountsClient_fetch :
    (fetch_all_data exPartialCountsClient exState.event_queries).2 = .ok exDataPartial := by
  simp [fetch_all_data, fetchEventCounts, buildMonitorData, dictSet, exPartialCountsClient,
    exMonitor1, exMonitor2, exState, exDataPartial, exMdMissing2, List.insertionSort,
    List.orderedInsert, List.lookup]
  decide

/-- C9: When the event-count call for a registered pair succeeds but the
returned mapping has no entry for a monitor's identifier, that monitor's
count for the pair is recorded as the integer `0`, not as the absent
sentinel. -/
theorem claim_zero_for_missing_monitor (st : CoordinatorState) (c : ZoneMinderClient)
    (q : EventQuery) (d : ZmData) (cs : List (String × Int))
    (hq : q ∈ st.event_queries)
    (hc : c.get_event_counts q.1 q.2 = .ok (some cs))
    (h : (fetch_all_data c st.event_queries).2 = .ok d) :
    ∀ p ∈ d.monitors, cs.lookup (toString p.1) = none
      → p.2.events.lookup q = some (some 0) := by
  rcases fetch_all_data_ok c st.event_queries d h with
    ⟨ms, l, rss, avail, hu, hec, hrs, hav, hmon, -, -, -, -⟩
  intro p hp hmiss
  rw [hmon] at hp
  rcases mem_foldl_dictSet _ _ _ _ _ hp with hnil | ⟨m, hm, rfl⟩
  · cases hnil
  · simp only at hmiss
    show (buildMonitorData l st.event_queries m).events.lookup q = some (some 0)
    rw [buildMonitorData_events_lookup l st.event_queries m q hq]
    rcases (fetchEventCounts_ok c st.event_queries l hec).2 q hq with ⟨r, hr, hlk⟩
    rw [hc] at hr
    cases hr
    simp [eventValue, hlk, hmiss]

theorem claim_zero_for_missing_monitor_witness :
    exMdMissing2.events.lookup (TimePeriod.all, false) = some (some 0) :=
  claim_zero_for_missing_monitor exState exPartialCountsClient (TimePeriod.all, false)
    exDataPartial [("1", 100)] (by decide) rfl exPartialCountsClient_fetch
    (2, exMdMissing2) (by decide) (by decide)

/-- C6: For every successful refresh cycle, the snapshot's available
run-state names are sorted independent of the server-returned order, and the
active run-state name is the name of a returned state whose active flag is
true, or `none` when no returned state is active. -/
theorem claim_run_states_sorted_active (st : CoordinatorState) (c : ZoneMinderClient)
    (d : ZmData) (rss : List RunState)
    (hrs : c.get_run_states = .ok rss)
    (h : (fetch_all_data c st.event_queries).2 = .ok d) :
    d.available_run_states.Sorted (· ≤ ·)
    ∧ d.available_run_states.Perm (rss.map (fun rs => rs.name))
    ∧ d.run_state = (rss.find? (fun rs => rs.active)).map (fun rs => rs.name)
    ∧ (∀ s, d.run_state = some s → ∃ rs ∈ rss, rs.active = true ∧ rs.name = s)
    ∧ ((∀ rs ∈ rss, rs.active = false) → d.run_state = none)
    ∧ ∀ (c' : ZoneMinderClient) (rss' : List RunState) (d' : ZmData),
        c'.get_run_states = .ok rss' → rss'.Perm rss
        → (fetch_all_data c' st.event_queries).2 = .ok d'
        → d'.available_run_states = d.available_run_states := by
  rcases fetch_all_data_ok c st.event_queries d h with
    ⟨ms, l, rss₀, avail, hu, hec, hrs₀, hav, -, hrun, havail, -, -⟩
  rw [hrs] at hrs₀
  cases hrs₀
  refine ⟨?_, ?_, hrun, ?_, ?_, ?_⟩
  · rw [havail]
    exact List.sorted_insertionSort _ _
  · rw [havail]
    exact List.perm_insertionSort _ _
  · intro s hs
    rw [hrun] at hs
    rcases Option.map_eq_some'.mp hs with ⟨rs, hfind, hname⟩
    exact ⟨rs, List.mem_of_find?_eq_some hfind,
      by simpa using List.find?_some hfind, hname⟩
  · intro hall
    rw [hrun]
    rw [List.find?_eq_none.mpr (fun rs hm => by simp [hall rs hm])]
    rfl
  · intro c' rss' d' hrs' hperm h'
    rcases fetch_all_data_ok c' st.event_queries d' h' with
      ⟨ms', l', rss₀', avail', hu', hec', hrs₀', hav', -, -, havail', -, -⟩
    rw [hrs'] at hrs₀'
    cases hrs₀'
    rw [havail', havail]
    refine List.eq_of_perm_of_sorted ?_ (List.sorted_insertionSort _ _)
      (List.sorted_insertionSort _ _)
    exact (List.perm_insertionSort _ _).trans
      ((hperm.map _).trans (List.perm_insertionSort _ _).symm)

theorem claim_run_states_sorted_active_witness :
    exData.available_run_states.Sorted (· ≤ ·)
    ∧ exData.run_state
      = ((([⟨"Running", true⟩, ⟨"Home", false⟩] : List RunState).find?
          (fun rs => rs.active)).map (fun rs => rs.name)) :=
  ⟨(claim_run_states_sorted_active exState exClient exData
      [⟨"Running", true⟩, ⟨"Home", false⟩] rfl exClient_fetch).1,
    (claim_run_states_sorted_active exState exClient exData
      [⟨"Running", true⟩, ⟨"Home", false⟩] rfl exClient_fetch).2.2.1⟩

/-- C7: The coordinator's registration set is the union of all sets passed
so far: membership is the union of the previous set and the new set,
registering the same set twice leaves the state unchanged, no registration is
ever removed, and a sequence of registrations accumulates to the union of all
of them. -/
theorem claim_register_union (st : CoordinatorState) (qs : List EventQuery)
    (history : List (List EventQuery)) :
    (∀ q, q ∈ (register_event_queries st qs).event_queries
        ↔ q ∈ st.event_queries ∨ q ∈ qs)
    ∧ register_event_queries (register_event_queries st qs) qs
        = register_event_queries st qs
    ∧ (∀ q, q ∈ st.event_queries → q ∈ (register_event_queries st qs).event_queries)
    ∧ (∀ q, q ∈ (history.foldl register_event_queries st).event_queries
        ↔ q ∈ st.event_queries ∨ ∃ s ∈ history, q ∈ s) := by
  have hmem : ∀ (st' : CoordinatorState) (qs' : List EventQuery) (q : EventQuery),
      q ∈ (register_event_queries st' qs').event_queries
        ↔ q ∈ st'.event_queries ∨ q ∈ qs' := by
    intro st' qs' q
    simp only [register_event_queries, List.mem_append, List.mem_filter,
      decide_eq_true_eq]
    constructor
    · rintro (h | ⟨h, -⟩)
      · exact Or.inl h
      · exact Or.inr h
    · rintro (h | h)
      · exact Or.inl h
      · by_cases hst : q ∈ st'.event_queries
        · exact Or.inl hst
        · exact Or.inr ⟨h, hst⟩
  refine ⟨hmem st qs, ?_, fun q hq => (hmem st qs q).mpr (Or.inl hq), ?_⟩
  · have hfilter : (qs.filter
        (fun q => decide (q ∉ (register_event_queries st qs).event_queries))) = [] := by
      apply List.filter_eq_nil_iff.mpr
      intro q hq
      simp only [decide_eq_true_eq, Decidable.not_not]
      exact (hmem st qs q).mpr (Or.inr hq)
    show { register_event_queries st qs with
      event_queries := (register_event_queries st qs).event_queries
        ++ qs.filter (fun q => decide (q ∉ (register_event_queries st qs).event_queries)) }
      = register_event_queries st qs
    rw [hfilter, List.append_nil]
  · intro q
    induction history generalizing st with
    | nil => simp
    | cons s rest ih =>
      simp only [List.foldl_cons]
      rw [ih (register_event_queries st s), hmem st s q]
      constructor
      · rintro ((h | h) | ⟨s', hs', hq⟩)
        · exact Or.inl h
        · exact Or.inr ⟨s, List.mem_cons_self s rest, h⟩
        · exact Or.inr ⟨s', List.mem_cons_of_mem _ hs', hq⟩
      · rintro (h | ⟨s', hs', hq⟩)
        · exact Or.inl (Or.inl h)
        · rcases List.mem_cons.mp hs' with rfl | hmem'
          · exact Or.inl (Or.inr hq)
          · exact Or.inr ⟨s', hmem', hq⟩

theorem claim_register_union_witness :
    (TimePeriod.all, false)
      ∈ (register_event_queries exState [(TimePeriod.hour, false)]).event_queries :=
  (claim_register_union exState [(TimePeriod.hour, false)] []).2.2.1
    (TimePeriod.all, false) (by decide)

/-- C3: When all three sub-mode fields are present, the displayed classic
function mode is derived from the triple (and does not depend on the classic
`function` field); when the sub-mode fields are absent, the classic field is
used verbatim; (Always, Always, OnMotion) derives MODECT; a triple with no
classic equivalent such as (Always, Always, None) yields the "Custom"
fallback, and the options list then temporarily includes "Custom". -/
theorem claim_function_mode_derivation :
    (∀ (md : ZmMonitorData) (cap ana rcd : String),
        md.capturing = some cap → md.analysing = some ana → md.recording = some rcd →
        currentOptionOfMonitorData md
            = (match derive_function cap ana rcd with
               | some s => some s.value
               | none => some "Custom")
          ∧ ∀ f, currentOptionOfMonitorData { md with function := f }
              = currentOptionOfMonitorData md)
    ∧ (∀ md : ZmMonitorData,
        md.capturing = none ∨ md.analysing = none ∨ md.recording = none →
        currentOptionOfMonitorData md = md.function.map MonitorState.value)
    ∧ derive_function "Always" "Always" "OnMotion" = some .MODECT
    ∧ derive_function "Always" "Always" "None" = none
    ∧ (∀ (d : ZmData) (mid : Nat) (md : ZmMonitorData),
        d.monitors.lookup mid = some md →
        md.capturing = some "Always" → md.analysing = some "Always" →
        md.recording = some "None" →
        ZMSelectFunction_current_option (some d) mid = some "Custom"
          ∧ ZMSelectFunction_options (some d) mid = FUNCTION_OPTIONS ++ ["Custom"]) := by
  refine ⟨?_, ?_, by decide, by decide, ?_⟩
  · intro md cap ana rcd h1 h2 h3
    constructor
    · simp [currentOptionOfMonitorData, h1, h2, h3]
    · intro f
      simp [currentOptionOfMonitorData, h1, h2, h3]
  · intro md habsent
    rcases hcap : md.capturing with - | cap
    · simp [currentOptionOfMonitorData, hcap]
      cases md.function <;> simp
    · rcases hana : md.analysing with - | ana
      · simp [currentOptionOfMonitorData, hcap, hana]
        cases md.function <;> simp
      · rcases hrcd : md.recording with - | rcd
        · simp [currentOptionOfMonitorData, hcap, hana, hrcd]
          cases md.function <;> simp
        · rw [hcap, hana, hrcd] at habsent
          rcases habsent with h | h | h <;> cases h
  · intro d mid md hlk h1 h2 h3
    have hcur : ZMSelectFunction_current_option (some d) mid = some "Custom" := by
      simp [ZMSelectFunction_current_option, hlk, currentOptionOfMonitorData, h1, h2, h3,
        derive_function]
    exact ⟨hcur, by simp [ZMSelectFunction_options, hcur]⟩

/-- A monitor-data record whose sub-mode triple (Always, Always, None) has no
classic equivalent. -/
def exMdCustom : ZmMonitorData :=
  { function := some .MODECT, is_recording := false, is_available := true,
    capturing := some "Always", analysing := some "Always", recording := some "None" }

/-- A snapshot containing `exMdCustom` as monitor 7. -/
def exDataCustom : ZmData :=
  { monitors := [(7, exMdCustom)]
    run_state := some "Running"
    available_run_states := ["Running"]
    server_available := true }

theorem claim_function_mode_derivation_witness :
    currentOptionOfMonitorData exMdCustom = some "Custom"
    ∧ ZMSelectFunction_options (some exDataCustom) 7 = FUNCTION_OPTIONS ++ ["Custom"] :=
  ⟨by
      have h := (claim_function_mode_derivation.1 exMdCustom "Always" "Always" "None"
        rfl rfl rfl).1
      simpa [derive_function] using h,
    (claim_function_mode_derivation.2.2.2.2 exDataCustom 7 exMdCustom (by decide)
      rfl rfl rfl).2⟩

/-- A snapshot from a successful cycle whose server-reachability flag is
false. -/
def exDataUnreachable : ZmData :=
  { monitors := [], run_state := none, available_run_states := [],
    server_available := false }

/-- A snapshot from a successful cycle in which monitor 1's availability
flag is false. -/
def exDataMonUnavailable : ZmData :=
  { monitors := [(1, { function := some .MODECT, is_recording := false,
                       is_available := false })]
    run_state := some "Running"
    available_run_states := ["Running"]
    server_available := true }

/-- C4 counterexample: with the last refresh successful, the run-state
entities' availability still depends on the snapshot's server-reachability
flag, and the monitor-status entity's availability on the monitor's
availability flag — contradicting the claim that after a successful refresh
availability does not additionally depend on per-field reachability flags. -/
theorem claim_availability_counterexample :
    ZMSensorRunState_available true (some exDataUnreachable) = false
    ∧ ZMSensorRunState_available true (some exSnapshot) = true
    ∧ ZMSelectRunState_available true (some exDataUnreachable) = false
    ∧ ZMSensorMonitors_available true (some exDataMonUnavailable) 1 = false
    ∧ ZMSensorMonitors_available true (some exSnapshot) 1 = true := by
  decide

/-- C4 (amended): a failed last refresh always renders the entities
unavailable; with a successful last refresh, the run-state entities are
available exactly when the snapshot exists and its server-reachability flag
is true (sensor and select agree), and the monitor-status entity exactly
when the snapshot has the monitor and its availability flag is true. -/
theorem claim_availability_amended (lus : Bool) (data : Option ZmData) :
    (lus = false → ZMSensorRunState_available lus data = false
      ∧ ZMSelectRunState_available lus data = false
      ∧ ∀ mid, ZMSensorMonitors_available lus data mid = false)
    ∧ (ZMSensorRunState_available lus data = true
        ↔ lus = true ∧ ∃ d, data = some d ∧ d.server_available = true)
    ∧ ZMSelectRunState_available lus data = ZMSensorRunState_available lus data
    ∧ ∀ mid, (ZMSensorMonitors_available lus data mid = true
        ↔ lus = true ∧ ∃ d md, data = some d ∧ d.monitors.lookup mid = some md
            ∧ md.is_available = true) := by
  refine ⟨?_, ?_, ?_, ?_⟩
  · rintro rfl
    refine ⟨rfl, rfl, fun mid => rfl⟩
  · cases lus with
    | false => simp [ZMSensorRunState_available]
    | true =>
      cases data with
      | none => simp [ZMSensorRunState_available]
      | some d => simp [ZMSensorRunState_available]
  · cases lus with
    | false => rfl
    | true =>
      cases data with
      | none => rfl
      | some d => rfl
  · intro mid
    cases lus with
    | false => simp [ZMSensorMonitors_available]
    | true =>
      cases data with
      | none => simp [ZMSensorMonitors_available]
      | some d =>
        cases hlk : d.monitors.lookup mid with
        | none => simp [ZMSensorMonitors_available, hlk]
        | some md => simp [ZMSensorMonitors_available, hlk]

theorem claim_availability_amended_witness :
    ZMSensorRunState_available false (some exSnapshot) = false :=
  ((claim_availability_amended false (some exSnapshot)).1 rfl).1

/-- C8: While a refresh cycle is in flight, two rapid-succession refresh
requests schedule exactly one additional cycle, not two, and no duplicate
concurrent fetch is started. -/
theorem claim_request_refresh_coalescing (s : RefreshScheduler)
    (hin : s.in_flight = true) (hsch : s.scheduled = 0) :
    request_refresh (request_refresh s) = request_refresh s
    ∧ (request_refresh (request_refresh s)).scheduled = 1
    ∧ (request_refresh (request_refresh s)).in_flight = true := by
  rcases s with ⟨inf, sch⟩
  simp only at hin hsch
  subst hin
  subst hsch
  refine ⟨rfl, rfl, rfl⟩

theorem claim_request_refresh_coalescing_witness :
    request_refresh (request_refresh ⟨true, 0⟩) = request_refresh ⟨true, 0⟩
    ∧ (request_refresh (request_refresh ⟨true, 0⟩)).scheduled = 1
    ∧ (request_refresh (request_refresh ⟨true, 0⟩)).in_flight = true :=
  claim_request_refresh_coalescing ⟨true, 0⟩ rfl rfl

/-- C10 counterexample: the claim says every login failure by a raised error
raises the not-ready error, but a missing-field error (`KeyError`) raised by
the login call is not in the login `except` clause: setup does not produce
the not-ready outcome there — the exception propagates uncaught. -/
theorem claim_setup_login_key_counterexample :
    setup_entry_outcome (.error .key) (.ok []) = .uncaughtError
    ∧ setup_entry_outcome (.error .key) (.ok []) ≠ SetupOutcome.notReady :=
  ⟨rfl, by decide⟩

/-- C10 (amended): a failed initial monitor-list fetch (raised protocol,
transport, or missing-field error) does not abort setup — the monitor list
is set to empty and the coordinator is still created over it — whereas a
login failure by a raised transport, login, or protocol error, or by a false
return, raises the not-ready error and blocks creation entirely; a
missing-field error (KeyError) raised by login is not caught and propagates
out of setup instead of raising not-ready. -/
theorem claim_setup_monitor_fetch_resilient :
    (∀ mr : Except ZmError (List Monitor),
        setup_entry_outcome (.error .request) mr = .notReady
        ∧ setup_entry_outcome (.error .login) mr = .notReady
        ∧ setup_entry_outcome (.error .zoneminder) mr = .notReady)
    ∧ (∀ mr : Except ZmError (List Monitor),
        setup_entry_outcome (.ok false) mr = .notReady)
    ∧ (∀ e : ZmError, setup_entry_outcome (.ok true) (.error e) = .ready [])
    ∧ (∀ ms : List Monitor, setup_entry_outcome (.ok true) (.ok ms) = .ready ms)
    ∧ (∀ mr : Except ZmError (List Monitor),
        setup_entry_outcome (.error .key) mr = .uncaughtError) :=
  ⟨fun _ => ⟨rfl, rfl, rfl⟩, fun _ => rfl, fun _ => rfl, fun _ => rfl, fun _ => rfl⟩

end ZM
